import Mathlib

/-!
# Verification of the NanoGUI core (vector.h, matrix.h, screen.cpp)

Shallow embedding of the fixed-size linear-algebra helpers
(`include/nanogui/vector.h`, `include/nanogui/matrix.h`) and of the
`Screen` event funnel (`src/screen.cpp`), together with theorems that
settle the specification claims about them.

Conventions:
* C++ `int` coordinates are modelled as `Int`; positions are pairs `Int × Int`.
* C++ `float`/`double` quantities (pixel ratio, raw event coordinates) are
  modelled as `ℚ`; the C-style cast `(int)q` truncates toward zero
  (`qTruncSpec`/`divTrunc` below).
* Fallible user callbacks (which may throw) are modelled as functions
  returning `Except String Bool`; a C++ `catch (const std::exception &)`
  block corresponds to matching on `.error`.
* A null-pointer dereference (undefined behaviour, not catchable) is
  modelled by the handler returning `none`.
-/

namespace NanoGui

/-! ## Fixed-size vectors (include/nanogui/vector.h)

`Vector<T, n>` stores `T mElems[n]`; we model it as `Fin n → α`.
-/

/-- `Vector<T, n>`, modelled as a function from indices to elements. -/
def Vec (α : Type) (n : Nat) : Type := Fin n → α

/-- `get<i>()` (vector.h lines 225-229): returns `mElems[i]`, with the
`enable_if<isgreater(n, i)>` bound carried as the `Fin` bound. -/
def Vec.get {α : Type} {n : Nat} (v : Vec α n) (i : Fin n) : α := v i

/-- `z()` (vector.h lines 235-236): `return get<2>();`, available when `n > 2`. -/
def Vec.z {α : Type} {n : Nat} (v : Vec α n) (h : 2 < n) : α :=
  Vec.get v ⟨2, h⟩

/-- `w()` (vector.h lines 237-238): the template default is `i = 3`, but the
body is `return get<2>();`, so it is available whenever `n > 2` and returns
the element at index 2. -/
def Vec.w {α : Type} {n : Nat} (v : Vec α n) (h : 2 < n) : α :=
  Vec.get v ⟨2, h⟩

/-! ## Fixed-size matrices (include/nanogui/matrix.h)

`Matrix<T, R, C>` stores `Row mRows[R]` with `Row = Vector<T, C>`; we model
it as `Fin R → Fin C → α`.  The default constructor `Matrix() {}`
default-constructs every row, and `Vector`'s default constructor
(`Vector(T val=0)`, vector.h lines 22-26) fills every element with 0, so a
default-constructed matrix is the zero matrix.
-/

/-- `setZero()` (matrix.h lines 38-44): every entry becomes 0. -/
def Mat.setZero (R C : Nat) {α : Type} [Zero α] : Fin R → Fin C → α :=
  fun _ _ => 0

/-- `setIdentity()` (matrix.h lines 46-51): `setZero()` followed by
`mRows[i][i] = 1` for every `i < min(R, C)`. -/
def Mat.setIdentity (R C : Nat) {α : Type} [Zero α] [One α] : Fin R → Fin C → α :=
  fun i j =>
    if (i : Nat) = (j : Nat) ∧ (i : Nat) < min R C then 1 else Mat.setZero R C i j

/-- `operator*(const Matrix<T, C, P>&)` (matrix.h lines 92-103): the result
starts as a default-constructed (hence zero) matrix and entry `(i, j)` is
accumulated by `out[i][j] += mRows[i][k] * rhs[k][j]` for `k = 0, …, C-1`
in order, which is a left fold over the inner index. -/
def Mat.mul {α : Type} [NonAssocSemiring α] {R C P : Nat}
    (A : Fin R → Fin C → α) (B : Fin C → Fin P → α) : Fin R → Fin P → α :=
  fun i j => (List.finRange C).foldl (fun acc k => acc + A i k * B k j) 0

/-- Folding `acc + f k` over a list starting from `a` yields `a` plus the sum
of the mapped list. -/
theorem foldl_add_eq_add_sum {α : Type} [AddCommMonoid α] {β : Type} (f : β → α) :
    ∀ (l : List β) (a : α), l.foldl (fun acc k => acc + f k) a = a + (l.map f).sum := by
  intro l
  induction l with
  | nil => intro a; simp
  | cons b t ih => intro a; simp [ih, add_assoc]

/-- **C7.** Matrix multiplication with a square identity left factor: for the
`C×C` identity built by `setZero`/`setIdentity` and any `C×P` matrix `M` over
an exact numeric type, `I * M = M` (matrix.h `operator*`, `setIdentity`). -/
theorem identity_mul {α : Type} [NonAssocSemiring α] (C P : Nat)
    (M : Fin C → Fin P → α) :
    Mat.mul (Mat.setIdentity C C) M = M := by
  funext i j
  unfold Mat.mul
  rw [foldl_add_eq_add_sum, zero_add, ← Fin.sum_univ_def]
  have h : ∀ k : Fin C, Mat.setIdentity C C i k * M k j
      = if i = k then M k j else 0 := by
    intro k
    by_cases hik : i = k
    · subst hik
      simp [Mat.setIdentity, i.isLt]
    · have : (i : Nat) ≠ (k : Nat) := fun hc => hik (Fin.ext hc)
      simp [Mat.setIdentity, Mat.setZero, this, hik]
  simp only [h]
  simp

/-- **C8.** For every `Vector<T, n>` with `n > 2`, the accessor `w()` returns
the element at index 2 — the same element as `z()` — rather than the element
at index 3 (vector.h lines 225-238); the final conjunct exhibits that `w()`
does not in general agree with the element at index 3. -/
theorem w_returns_index_two {α : Type} (n : Nat) (h : 2 < n) (v : Vec α n) :
    Vec.w v h = Vec.get v ⟨2, h⟩ ∧ Vec.w v h = Vec.z v h ∧
    ¬ (∀ (u : Vec Int 4), Vec.w u (by omega) = Vec.get u ⟨3, by omega⟩) := by
  refine ⟨rfl, rfl, ?_⟩
  intro hall
  have := hall (fun i => if i = (3 : Fin 4) then 7 else 5)
  simp [Vec.w, Vec.get, Vec.z] at this

/-- Witness for `w_returns_index_two` at `n = 3` and a concrete vector. -/
theorem w_returns_index_two_witness :
    (2 < 3) ∧
    (Vec.w (fun i : Fin 3 => (i : Int)) (by omega)
        = Vec.get (fun i : Fin 3 => (i : Int)) ⟨2, by omega⟩ ∧
      Vec.w (fun i : Fin 3 => (i : Int)) (by omega)
        = Vec.z (fun i : Fin 3 => (i : Int)) (by omega) ∧
      ¬ (∀ (u : Vec Int 4), Vec.w u (by omega) = Vec.get u ⟨3, by omega⟩)) :=
  ⟨by omega, w_returns_index_two 3 (by omega) (fun i : Fin 3 => (i : Int))⟩

/-! ## `Screen::moveWindowToFront` (screen.cpp lines 630-650)

The screen's child list `mChildren` is a vector of widget pointers.  We
model each child by its identity (`id`, standing for the pointer), whether
it is a `Popup` (the `dynamic_cast<Popup *>` test) and, for popups, the
identity of its `parentWindow()`.  Pointer equality between children is
modelled as equality of `id`.
-/

/-- A child of the screen, as seen by `moveWindowToFront`. -/
structure WChild where
  id : Nat
  isPopup : Bool
  parentWindow : Option Nat
  deriving DecidableEq, Repr

/-- The `baseIndex` loop (screen.cpp lines 636-639): scan all indices and
remember the last one whose child is `window` (`acc` starts at 0). -/
def baseIndexLoop (w : Nat) : List WChild → Nat → Nat → Nat
  | [], _, acc => acc
  | c :: rest, i, acc => baseIndexLoop w rest (i + 1) (if c.id = w then i else acc)

/-- `baseIndex` as computed at the top of each do-while iteration. -/
def baseIndex (cs : List WChild) (w : Nat) : Nat := baseIndexLoop w cs 0 0

/-- The violation scan (screen.cpp lines 641-648): the first child that is a
`Popup`, whose `parentWindow()` is `window`, and that sits at an index below
`baseIndex`. -/
def violationLoop (w base : Nat) : List WChild → Nat → Option WChild
  | [], _ => none
  | c :: rest, i =>
      if c.isPopup = true ∧ c.parentWindow = some w ∧ i < base then some c
      else violationLoop w base rest (i + 1)

/-- `mChildren.erase(std::remove(..., window), ...)` followed by
`mChildren.push_back(window)` (screen.cpp lines 631-632). -/
def pushToBack (cs : List WChild) (w : WChild) : List WChild :=
  (cs.filter fun c => c.id ≠ w.id) ++ [w]

/-- The do-while re-stabilization loop of `moveWindowToFront`
(screen.cpp lines 634-649).  Each iteration recomputes `baseIndex`, scans for
a violating popup and, if one is found, recursively runs the whole of
`moveWindowToFront` on it (modelled by `pushToBack` followed by this loop)
before trying again.  `fuel` bounds the recursion depth; `none` means the
fuel ran out (the C++ loop would not have terminated yet). -/
def stabilize : Nat → List WChild → WChild → Option (List WChild)
  | 0, _, _ => none
  | fuel + 1, cs, w =>
      match violationLoop w.id (baseIndex cs w.id) cs 0 with
      | none => some cs
      | some pw =>
          (stabilize fuel (pushToBack cs pw) pw).bind
            (fun cs2 => stabilize fuel cs2 w)

/-- `Screen::moveWindowToFront(Window *)` (screen.cpp lines 630-650). -/
def moveWindowToFront (fuel : Nat) (cs : List WChild) (w : WChild) :
    Option (List WChild) :=
  stabilize fuel (pushToBack cs w) w

/-- The key invariant: the children whose identity is `w.id` are exactly
`[w]` (in C++ terms: exactly one pointer in `mChildren` equals `window`). -/
def UniqueAt (cs : List WChild) (w : WChild) : Prop :=
  cs.filter (fun c => c.id = w.id) = [w]

theorem filter_ne_then_eq {w v : Nat} (cs : List WChild) :
    (cs.filter fun c => c.id ≠ v).filter (fun c => c.id = w)
      = (cs.filter fun c => c.id = w).filter (fun c => c.id ≠ v) :=
  List.filter_comm _ _ cs

/-- `pushToBack cs w` makes `w` the unique child with its identity. -/
theorem pushToBack_uniqueAt (cs : List WChild) (w : WChild) :
    UniqueAt (pushToBack cs w) w := by
  unfold UniqueAt pushToBack
  rw [List.filter_append, filter_ne_then_eq]
  have h : (cs.filter fun c => c.id = w.id).filter (fun c => c.id ≠ w.id) = [] := by
    induction cs with
    | nil => rfl
    | cons c t ih => by_cases h2 : c.id = w.id <;> simp [h2, ih]
  simp [h]

/-- `pushToBack` with any child already in the list preserves uniqueness of
`w`. -/
theorem pushToBack_preserves (cs : List WChild) (w v : WChild)
    (hu : UniqueAt cs w) (hv : v ∈ cs) : UniqueAt (pushToBack cs v) w := by
  by_cases hid : v.id = w.id
  · have hvw : v = w := by
      have : v ∈ cs.filter (fun c => c.id = w.id) := by
        simp [List.mem_filter, hv, hid]
      rw [hu] at this
      simpa using this
    subst hvw
    exact pushToBack_uniqueAt cs v
  · have hid' : ¬ w.id = v.id := fun h => hid h.symm
    unfold UniqueAt pushToBack
    rw [List.filter_append, filter_ne_then_eq, hu]
    simp [hid, hid']

/-- A violation returned by the scan is a member of the list. -/
theorem violationLoop_mem {w base : Nat} :
    ∀ (cs : List WChild) (i : Nat) (pw : WChild),
      violationLoop w base cs i = some pw → pw ∈ cs := by
  intro cs
  induction cs with
  | nil => intro i pw h; simp [violationLoop] at h
  | cons c t ih =>
      intro i pw h
      unfold violationLoop at h
      split at h
      · simp at h; simp [h]
      · exact List.mem_cons_of_mem c (ih (i + 1) pw h)

/-- The stabilization loop preserves uniqueness of `w` in the child list. -/
theorem stabilize_preserves (w : WChild) :
    ∀ (fuel : Nat) (cs : List WChild) (v : WChild) (cs' : List WChild),
      UniqueAt cs w → stabilize fuel cs v = some cs' → UniqueAt cs' w := by
  intro fuel
  induction fuel with
  | zero => intro cs v cs' _ h; simp [stabilize] at h
  | succ fuel ih =>
      intro cs v cs' hu h
      unfold stabilize at h
      split at h
      · simp at h
        rw [← h]; exact hu
      · rename_i pw hviol
        rcases Option.bind_eq_some.mp h with ⟨cs2, hrec, h2⟩
        have hu2 : UniqueAt (pushToBack cs pw) w :=
          pushToBack_preserves cs w pw hu (violationLoop_mem cs 0 pw hviol)
        exact ih cs2 v cs' (ih (pushToBack cs pw) pw cs2 hu2 hrec) h2

/-- When the stabilization loop exits, the violation scan on the final list
comes up empty (the do-while condition `changed` is false). -/
theorem stabilize_no_violation :
    ∀ (fuel : Nat) (cs : List WChild) (v : WChild) (cs' : List WChild),
      stabilize fuel cs v = some cs' →
      violationLoop v.id (baseIndex cs' v.id) cs' 0 = none := by
  intro fuel
  induction fuel with
  | zero => intro cs v cs' h; simp [stabilize] at h
  | succ fuel ih =>
      intro cs v cs' h
      unfold stabilize at h
      split at h
      · rename_i hviol
        simp at h
        rw [← h]; exact hviol
      · rename_i pw hviol
        rcases Option.bind_eq_some.mp h with ⟨cs2, hrec, h2⟩
        exact ih cs2 v cs' h2

/-- An empty violation scan means no popup anchored to `w` sits below
`base`. -/
theorem violationLoop_none_sound {w base : Nat} :
    ∀ (cs : List WChild) (i : Nat),
      violationLoop w base cs i = none →
      ∀ (j : Nat) (hj : j < cs.length),
        (cs.get ⟨j, hj⟩).isPopup = true →
        (cs.get ⟨j, hj⟩).parentWindow = some w →
        ¬ (i + j < base) := by
  intro cs
  induction cs with
  | nil => intro i _ j hj; simp at hj
  | cons c t ih =>
      intro i h j hj hpop hpar
      unfold violationLoop at h
      split at h
      · exact absurd h (by simp)
      · rename_i hcond
        cases j with
        | zero =>
            simp at hpop hpar
            exact fun hlt => hcond ⟨hpop, hpar, by omega⟩
        | succ j' =>
            have := ih (i + 1) h j' (by simpa using hj)
              (by simpa using hpop) (by simpa using hpar)
            omega

/-- If no child has identity `w`, the `baseIndex` loop keeps its
accumulator (the C++ loop leaves `baseIndex` at 0). -/
theorem baseIndexLoop_no_match {w : Nat} :
    ∀ (cs : List WChild) (i acc : Nat),
      (∀ c ∈ cs, c.id ≠ w) → baseIndexLoop w cs i acc = acc := by
  intro cs
  induction cs with
  | nil => intro i acc _; rfl
  | cons d t ih =>
      intro i acc hno
      unfold baseIndexLoop
      rw [if_neg (hno d (List.mem_cons_self d t))]
      exact ih (i + 1) acc (fun c' hc' => hno c' (List.mem_cons_of_mem d hc'))

/-- If some child has identity `w`, the `baseIndex` loop lands on an index
holding such a child. -/
theorem baseIndexLoop_hits {w : Nat} :
    ∀ (cs : List WChild) (i acc : Nat),
      (∃ c ∈ cs, c.id = w) →
      ∃ (j : Nat) (hj : j < cs.length),
        (cs.get ⟨j, hj⟩).id = w ∧ baseIndexLoop w cs i acc = i + j := by
  intro cs
  induction cs with
  | nil => intro i acc h; simp at h
  | cons c t ih =>
      intro i acc h
      by_cases ht : ∃ c' ∈ t, c'.id = w
      · obtain ⟨j, hj, hid, heq⟩ := ih (i + 1) (if c.id = w then i else acc) ht
        refine ⟨j + 1, by simpa using Nat.succ_lt_succ hj, by simpa using hid, ?_⟩
        unfold baseIndexLoop
        omega
      · have hc : c.id = w := by
          rcases h with ⟨c', hc', hid⟩
          rcases List.mem_cons.mp hc' with h1 | h1
          · rw [← h1]; exact hid
          · exact absurd ⟨c', h1, hid⟩ ht
        refine ⟨0, by simp, by simpa using hc, ?_⟩
        unfold baseIndexLoop
        rw [if_pos hc]
        have hno : ∀ c' ∈ t, c'.id ≠ w := by
          intro c' hc' hw
          exact ht ⟨c', hc', hw⟩
        rw [baseIndexLoop_no_match t (i + 1) i hno]
        omega

/-- **C1.** After `moveWindowToFront(W)` returns (the fixed-point loop
terminates within the given fuel) on a screen whose children include `W`,
the final child list contains `W` at some index `bi`, and every `Popup`
child whose `parentWindow()` is `W` sits at an index strictly greater than
`bi` (screen.cpp lines 630-650).  The side condition `hself` records that
`W` is not a popup anchored to itself, which is impossible for C++ pointers
since a `Popup`'s parent window exists before the popup is constructed. -/
theorem moveWindowToFront_popups_after (fuel : Nat) (cs : List WChild)
    (w : WChild) (cs' : List WChild)
    (_hmem : w ∈ cs)
    (hself : ¬ (w.isPopup = true ∧ w.parentWindow = some w.id))
    (hrun : moveWindowToFront fuel cs w = some cs') :
    ∃ (bi : Nat) (hbi : bi < cs'.length),
      cs'.get ⟨bi, hbi⟩ = w ∧
      ∀ (j : Nat) (hj : j < cs'.length),
        (cs'.get ⟨j, hj⟩).isPopup = true →
        (cs'.get ⟨j, hj⟩).parentWindow = some w.id →
        bi < j := by
  unfold moveWindowToFront at hrun
  have hu : UniqueAt cs' w :=
    stabilize_preserves w fuel (pushToBack cs w) w cs'
      (pushToBack_uniqueAt cs w) hrun
  have hnov := stabilize_no_violation fuel (pushToBack cs w) w cs' hrun
  have hwmem : w ∈ cs' := by
    have : w ∈ cs'.filter (fun c => c.id = w.id) := by rw [hu]; simp
    exact (List.mem_filter.mp this).1
  obtain ⟨bi, hbi, hid, hbase⟩ :=
    baseIndexLoop_hits cs' 0 0 ⟨w, hwmem, rfl⟩
  have hbase' : baseIndex cs' w.id = bi := by
    unfold baseIndex; omega
  have hat : cs'.get ⟨bi, hbi⟩ = w := by
    have hmemf : cs'.get ⟨bi, hbi⟩ ∈ cs'.filter (fun c => c.id = w.id) :=
      List.mem_filter.mpr ⟨List.get_mem cs' bi hbi, by simpa using hid⟩
    rw [hu] at hmemf
    simpa using hmemf
  refine ⟨bi, hbi, hat, ?_⟩
  intro j hj hpop hpar
  have hnot := violationLoop_none_sound cs' 0 hnov j hj hpop hpar
  rw [hbase'] at hnot
  have hge : bi ≤ j := by omega
  rcases Nat.lt_or_ge bi j with h | h
  · exact h
  · have : j = bi := by omega
    subst this
    rw [hat] at hpop hpar
    exact absurd ⟨hpop, hpar⟩ hself

/-- Witness for `moveWindowToFront_popups_after`: a screen with one popup
(id 2) anchored to window id 1, initially listed before the window. -/
theorem moveWindowToFront_popups_after_witness :
    (moveWindowToFront 5
        [⟨2, true, some 1⟩, ⟨1, false, none⟩] ⟨1, false, none⟩
      = some [⟨1, false, none⟩, ⟨2, true, some 1⟩]) ∧
    (∃ (bi : Nat)
        (hbi : bi < ([⟨1, false, none⟩, ⟨2, true, some 1⟩] : List WChild).length),
      ([⟨1, false, none⟩, ⟨2, true, some 1⟩] : List WChild).get ⟨bi, hbi⟩
          = ⟨1, false, none⟩ ∧
      ∀ (j : Nat)
        (hj : j < ([⟨1, false, none⟩, ⟨2, true, some 1⟩] : List WChild).length),
        (([⟨1, false, none⟩, ⟨2, true, some 1⟩] : List WChild).get
            ⟨j, hj⟩).isPopup = true →
        (([⟨1, false, none⟩, ⟨2, true, some 1⟩] : List WChild).get
            ⟨j, hj⟩).parentWindow = some (1 : Nat) →
        bi < j) :=
  ⟨by decide,
    moveWindowToFront_popups_after 5
      [⟨2, true, some 1⟩, ⟨1, false, none⟩] ⟨1, false, none⟩
      [⟨1, false, none⟩, ⟨2, true, some 1⟩]
      (by decide) (by decide) (by decide)⟩

/-! ## The `Screen` event funnel (screen.cpp lines 409-628)

The widget tree itself lives in `widget.cpp`, which is not part of the
excerpt; the widget-level virtuals the screen calls into
(`Widget::findWidget`, `Widget::mouseButtonEvent`, …) are therefore
parameters of the model (`Env` below), and each handler additionally
returns the list of widget-level calls it performed, so that theorems can
speak about which callbacks were invoked and with which arguments.
`mLastInteraction` (a wall-clock timestamp) is not modelled.
-/

/-- `Vector2i`: a pair of C `int` coordinates. -/
abbrev V2 : Type := Int × Int

/-- Componentwise subtraction of `Vector2i` (vector.h `operator-`). -/
def v2sub (a b : V2) : V2 := (a.1 - b.1, a.2 - b.2)

/-- The C-style cast `(int) q`: truncation toward zero. -/
def qTruncSpec (q : ℚ) : Int := if q < 0 then -⌊-q⌋ else ⌊q⌋

/-- The C expression `(int) (x / r)` — divide, then truncate toward zero.
Computed on numerators and denominators (`x/r = (x.num * r.den) / (x.den *
r.num)`, and `Int.tdiv` is truncated division), which keeps the definition
kernel-computable; `divTrunc_eq_qTruncSpec` below proves it agrees with
truncating the exact quotient whenever `r > 0`. -/
def divTrunc (x r : ℚ) : Int :=
  (x.num * (r.den : Int)).tdiv ((x.den : Int) * r.num)

/-- For a positive divisor, `divTrunc` is exactly the C-style truncation of
the exact quotient `x / r`. -/
theorem divTrunc_eq_qTruncSpec (x r : ℚ) (hr : 0 < r) :
    divTrunc x r = qTruncSpec (x / r) := by
  have hrnum : 0 < r.num := Rat.num_pos.mpr hr
  have hm : 0 < (x.den : Int) * r.num :=
    mul_pos (by exact_mod_cast x.den_pos) hrnum
  have hden : ((x.den : Int) * r.num).toNat = (x.den : Int) * r.num :=
    Int.toNat_of_nonneg hm.le
  have hxden : ((x.den : ℚ)) ≠ 0 := by exact_mod_cast x.den_nz
  have hrden : ((r.den : ℚ)) ≠ 0 := by exact_mod_cast r.den_nz
  have hrnum' : ((r.num : ℚ)) ≠ 0 := by exact_mod_cast hrnum.ne'
  have hq : x / r = ((x.num * (r.den : Int) : Int) : ℚ)
      / (((((x.den : Int) * r.num).toNat : ℕ)) : ℚ) := by
    rw [show ((((((x.den : Int) * r.num).toNat : ℕ)) : ℚ))
          = (((x.den : Int) * r.num : Int) : ℚ) by exact_mod_cast congrArg Int.cast hden]
    conv_lhs => rw [← Rat.num_div_den x, ← Rat.num_div_den r]
    push_cast
    field_simp
  rcases le_or_lt 0 (x.num * (r.den : Int)) with hn | hn
  · have hpos : 0 ≤ x / r := by
      rw [hq]
      apply div_nonneg
      · exact_mod_cast hn
      · positivity
    unfold divTrunc qTruncSpec
    rw [if_neg (not_lt.mpr hpos), hq, Rat.floor_intCast_div_natCast, hden,
      Int.tdiv_eq_ediv hn hm.le]
  · have hneg : x / r < 0 := by
      rw [hq]
      apply div_neg_of_neg_of_pos
      · exact_mod_cast hn
      · have : (0 : Int) < (((x.den : Int) * r.num).toNat : ℤ) := by omega
        exact_mod_cast this
    unfold divTrunc qTruncSpec
    rw [if_pos hneg, hq, ← neg_div, show (-((x.num * (r.den : Int) : Int) : ℚ))
          = ((-(x.num * (r.den : Int)) : Int) : ℚ) by push_cast; ring,
      Rat.floor_intCast_div_natCast, hden,
      ← Int.tdiv_eq_ediv (a := -(x.num * (r.den : Int))) (by omega) hm.le,
      Int.neg_tdiv, neg_neg]

deriving instance DecidableEq for Except

/-- A member of `mFocusPath`, carrying the fields of the widget that the
screen's dispatch code reads: its identity, whether
`dynamic_cast<Window *>` succeeds, `Window::modal()`, its rectangle, and
`Widget::focused()`.  `keyResult`/`charResult` are the (pre-applied)
results of the widget's `keyboardEvent`/`keyboardCharacterEvent` for the
event being delivered, `.error` meaning the callback throws. -/
structure FocusEntry where
  id : Nat
  isWindow : Bool
  modal : Bool
  pos : V2
  size : V2
  focused : Bool
  keyResult : Except String Bool
  charResult : Except String Bool
  deriving DecidableEq, Repr

/-- Modelled from the spec: `Widget::contains` is declared in headers and
defined in `widget.cpp`, which is not part of the excerpt.  The spec
describes the modal test as asking whether "the press/scroll point falls
outside it", i.e. outside the window's rectangle given by its position and
size; a point is inside when each coordinate lies in the half-open extent
starting at the window's position. -/
def FocusEntry.containsPt (w : FocusEntry) (p : V2) : Bool :=
  decide (w.pos.1 ≤ p.1 ∧ w.pos.2 ≤ p.2 ∧
    p.1 < w.pos.1 + w.size.1 ∧ p.2 < w.pos.2 + w.size.2)

/-- The screen's mutable input state (screen.h members used by the event
handlers in screen.cpp): `mMousePos`, `mMouseState`, `mModifiers`,
`mDragActive`, `mDragWidget` (a possibly-null pointer, hence `Option`),
`mCursor`, `mFocusPath` (focused leaf first, root last), `mSize`,
`mFBSize`. -/
structure ScreenState where
  mousePos : V2
  mouseState : Nat
  modifiers : Int
  dragActive : Bool
  dragWidget : Option Nat
  cursor : Int
  focusPath : List FocusEntry
  size : V2
  fbSize : V2
  deriving DecidableEq, Repr

/-- A widget-level call made by a handler, with the arguments it passed. -/
inductive Call where
  | findW (p : V2)
  | dragEv (w : Nat) (rel delta : V2) (btns : Nat) (mods : Int)
  | motionEv (p delta : V2) (btns : Nat) (mods : Int)
  | buttonEv (p : V2) (btn : Nat) (down : Bool) (mods : Int)
  | dragButtonEv (w : Nat) (rel : V2) (btn : Nat) (down : Bool) (mods : Int)
  | scrollEv (p : V2) (sx sy : ℚ)
  | resizeEv (s : V2)
  | focusChangeEv (w : Nat) (gained : Bool)
  deriving DecidableEq, Repr

/-- The widget-tree side of the program (`widget.cpp` and user-overridden
virtuals), supplied as parameters: each `Except`-valued field models a
callback that may throw. -/
structure Env where
  screenId : Nat
  pixelRatio : ℚ
  findWidget : V2 → Option Nat
  widgetCursor : Nat → Int
  parentAbsPos : Nat → V2
  mouseDragEvent : Nat → V2 → V2 → Nat → Int → Except String Bool
  mouseMotionEvent : V2 → V2 → Nat → Int → Except String Bool
  mouseButtonEvent : V2 → Nat → Bool → Int → Except String Bool
  dragButtonEvent : Nat → V2 → Nat → Bool → Int → Except String Bool
  scrollEvent : V2 → ℚ → ℚ → Except String Bool
  focusEvent : Nat → Bool → Except String Bool
  resizeCallback : Option (V2 → Except String Unit)
  dropEvent : List String → Except String Bool

/-- A handler's outcome: the returned flag, the state after the call, the
widget-level calls performed, and the exception caught at the handler's
try/catch boundary, if any. -/
structure HRes where
  ret : Bool
  st : ScreenState
  calls : List Call
  caught : Option String
  deriving DecidableEq, Repr

/-- The modal-capture test shared by `mouseButtonCallbackEvent`
(screen.cpp lines 476-483) and `scrollCallbackEvent` (lines 553-560): when
`mFocusPath.size() > 1`, look at `mFocusPath[mFocusPath.size() - 2]` (the
widget just below the root); if it is a modal `Window` not containing the
stored mouse position, the event is suppressed. -/
def modalBlocked (st : ScreenState) : Bool :=
  if h : st.focusPath.length > 1 then
    let w := st.focusPath.get ⟨st.focusPath.length - 2, by omega⟩
    w.isWindow && w.modal && !(w.containsPt st.mousePos)
  else false

/-- The loop body shared by `Screen::keyboardEvent` (lines 409-417) and
`Screen::keyboardCharacterEvent` (lines 419-426): each widget in iteration
order is invoked only when `focused()`; the first invoked widget returning
true stops the loop, and a throwing widget propagates its exception at
once.  `sel` selects the widget's event result; the second component lists
the widgets actually invoked, in order. -/
def focusDispatch (sel : FocusEntry → Except String Bool) :
    List FocusEntry → Except String Bool × List Nat
  | [] => (.ok false, [])
  | w :: rest =>
      if w.focused then
        match sel w with
        | .error e => (.error e, [w.id])
        | .ok true => (.ok true, [w.id])
        | .ok false =>
            let r := focusDispatch sel rest
            (r.1, w.id :: r.2)
      else focusDispatch sel rest

/-- `Screen::keyboardEvent` (lines 409-417): when the focus path is
non-empty, iterate from `rbegin() + 1` to `rend()` — the path without its
last entry (the root), in reverse: from the widget just below the root down
to the focused leaf. -/
def Screen.keyboardEvent (path : List FocusEntry) :
    Except String Bool × List Nat :=
  if path.length > 0 then
    focusDispatch (fun w => w.keyResult) path.dropLast.reverse
  else (.ok false, [])

/-- `Screen::keyboardCharacterEvent` (lines 419-426): same traversal with
the character callback. -/
def Screen.keyboardCharacterEvent (path : List FocusEntry) :
    Except String Bool × List Nat :=
  if path.length > 0 then
    focusDispatch (fun w => w.charResult) path.dropLast.reverse
  else (.ok false, [])

/-- `Screen::keyCallbackEvent` (lines 522-530): dispatch inside a try
block; a caught exception is logged and the event reported unhandled. -/
def keyCallbackEvent (path : List FocusEntry) : Bool × List Nat :=
  match Screen.keyboardEvent path with
  | (.ok b, t) => (b, t)
  | (.error _, t) => (false, t)

/-- `Screen::charCallbackEvent` (lines 532-541): same shape. -/
def charCallbackEvent (path : List FocusEntry) : Bool × List Nat :=
  match Screen.keyboardCharacterEvent path with
  | (.ok b, t) => (b, t)
  | (.error _, t) => (false, t)

/-- `Screen::resizeEvent` (lines 428-434): fire `mResizeCallback` when one
is installed and report the event handled; otherwise report unhandled. -/
def Screen.resizeEvent (env : Env) (size : V2) :
    Except String Bool × List Call :=
  match env.resizeCallback with
  | some cb =>
      match cb size with
      | .error e => (.error e, [Call.resizeEv size])
      | .ok _ => (.ok true, [Call.resizeEv size])
  | none => (.ok false, [])

/-- Componentwise `size /= mPixelRatio` (line 575, the WIN32/Linux branch),
the result being stored back into `int` coordinates. -/
def dpiScale (v : V2) (ratio : ℚ) : V2 :=
  (divTrunc (v.1 : ℚ) ratio, divTrunc (v.2 : ℚ) ratio)

/-- `Screen::resizeCallbackEvent` (lines 569-591).  Its `(int, int)`
arguments are ignored by the code; the size is re-read from the native
window via `puglGetSize`, modelled by the `nativeSize` input.  `fbSize` is
the raw native size; `size` is the DPI-scaled copy; a zero-valued report in
either aborts before any state is touched. -/
def resizeCallbackEvent (env : Env) (st : ScreenState) (nativeSize : V2) :
    HRes :=
  let fbSize := nativeSize
  let size := dpiScale nativeSize env.pixelRatio
  if fbSize = ((0 : Int), (0 : Int)) ∨ size = ((0 : Int), (0 : Int)) then
    ⟨false, st, [], none⟩
  else
    let st' := { st with fbSize := fbSize, size := size }
    match Screen.resizeEvent env st'.size with
    | (.error e, calls) => ⟨false, st', calls, some e⟩
    | (.ok b, calls) => ⟨b, st', calls, none⟩

/-- The coordinate translation at the top of `cursorPosCallbackEvent`
(lines 437-441 then 446, the WIN32/Linux branch): DPI-adjust the raw event
coordinates with a truncating int cast, then shift by `p -= Vector2i(1, 2)`. -/
def translatePos (ratio : ℚ) (x y : ℚ) : V2 :=
  (divTrunc x ratio - 1, divTrunc y ratio - 2)

/-- `Screen::cursorPosCallbackEvent` (lines 436-470).  `none` models the
drag branch dereferencing a null `mDragWidget` (undefined behaviour that
the catch block cannot intercept).  Note `mMousePos = p` (line 463) runs
only when the try block completes, and the cursor-shape update happens only
in the non-drag branch. -/
def cursorPosCallbackEvent (env : Env) (st : ScreenState) (x y : ℚ) :
    Option HRes :=
  let p := translatePos env.pixelRatio x y
  if st.dragActive then
    match st.dragWidget with
    | none => none
    | some dw =>
        let rel := v2sub p (env.parentAbsPos dw)
        let delta := v2sub p st.mousePos
        let c := Call.dragEv dw rel delta st.mouseState st.modifiers
        match env.mouseDragEvent dw rel delta st.mouseState st.modifiers with
        | .error e => some ⟨false, st, [c], some e⟩
        | .ok true => some ⟨true, { st with mousePos := p }, [c], none⟩
        | .ok false =>
            let c2 := Call.motionEv p delta st.mouseState st.modifiers
            match env.mouseMotionEvent p delta st.mouseState st.modifiers with
            | .error e => some ⟨false, st, [c, c2], some e⟩
            | .ok r => some ⟨r, { st with mousePos := p }, [c, c2], none⟩
  else
    let st1 :=
      match env.findWidget p with
      | some wid =>
          if env.widgetCursor wid ≠ st.cursor
          then { st with cursor := env.widgetCursor wid } else st
      | none => st
    let delta := v2sub p st.mousePos
    let c2 := Call.motionEv p delta st.mouseState st.modifiers
    match env.mouseMotionEvent p delta st.mouseState st.modifiers with
    | .error e => some ⟨false, st1, [Call.findW p, c2], some e⟩
    | .ok r => some ⟨r, { st1 with mousePos := p }, [Call.findW p, c2], none⟩

/-- The focus-loss sweep at the top of `updateFocus` (lines 594-598):
`focusEvent(false)` on every currently focused member of the focus path, a
throwing callback aborting the sweep. -/
def focusOutSweep (env : Env) : List FocusEntry → List Call × Option String
  | [] => ([], none)
  | w :: rest =>
      if w.focused then
        match env.focusEvent w.id false with
        | .error e => ([Call.focusChangeEv w.id false], some e)
        | .ok _ =>
            let r := focusOutSweep env rest
            (Call.focusChangeEv w.id false :: r.1, r.2)
      else focusOutSweep env rest

/-- The tail of `mouseButtonCallbackEvent` (lines 514-515): the final
`return mouseButtonEvent(mMousePos, button, action == 1, mModifiers)`
inside the try block. -/
def mbFinish (env : Env) (st : ScreenState) (button : Nat) (action : Int)
    (tr : List Call) : HRes :=
  let down := action == 1
  let c := Call.buttonEv st.mousePos button down st.modifiers
  match env.mouseButtonEvent st.mousePos button down st.modifiers with
  | .error e => ⟨false, st, tr ++ [c], some e⟩
  | .ok b => ⟨b, st, tr ++ [c], none⟩

/-- The drag-target selection of `mouseButtonCallbackEvent`
(lines 502-512): on a press of button 1 or 2, hit-test for a new drag
target, never the screen itself; when nothing is grabbed, clear focus via
`updateFocus(nullptr)` (whose focus-loss sweep may throw); on any other
event clear the drag state. -/
def mbDragSelect (env : Env) (st : ScreenState) (button : Nat) (action : Int)
    (tr : List Call) : HRes :=
  if action == 1 && (button == 1 || button == 2) then
    let dw0 := env.findWidget st.mousePos
    let tr := tr ++ [Call.findW st.mousePos]
    let dw := if dw0 = some env.screenId then none else dw0
    let st := { st with dragWidget := dw, dragActive := dw.isSome }
    if dw.isSome then mbFinish env st button action tr
    else
      let sweep := focusOutSweep env st.focusPath
      match sweep.2 with
      | some e => ⟨false, st, tr ++ sweep.1, some e⟩
      | none => mbFinish env { st with focusPath := [] } button action
          (tr ++ sweep.1)
  else
    mbFinish env { st with dragActive := false, dragWidget := none }
      button action tr

/-- The cursor-shape update of `mouseButtonCallbackEvent` (lines 497-500),
then the drag-target selection and the final dispatch. -/
def mbCursorAndRest (env : Env) (st : ScreenState) (button : Nat)
    (action : Int) (dropWidget : Option Nat) (tr : List Call) : HRes :=
  let st :=
    match dropWidget with
    | some dwi =>
        if env.widgetCursor dwi ≠ st.cursor
        then { st with cursor := env.widgetCursor dwi } else st
    | none => st
  mbDragSelect env st button action tr

/-- The synthesized drag-release of `mouseButtonCallbackEvent`
(lines 490-495): on a release while dragging over a widget other than the
drag target, deliver a button-release to the drag target first — a null
`mDragWidget` is dereferenced here (`none` result). -/
def mbSynth (env : Env) (st : ScreenState) (button : Nat) (action : Int)
    (dropWidget : Option Nat) (tr : List Call) : Option HRes :=
  if st.dragActive && action == 0 && dropWidget != st.dragWidget then
    match st.dragWidget with
    | none => none
    | some dw =>
        let rel := v2sub st.mousePos (env.parentAbsPos dw)
        let c := Call.dragButtonEv dw rel button false st.modifiers
        match env.dragButtonEvent dw rel button false st.modifiers with
        | .error e => some ⟨false, st, tr ++ [c], some e⟩
        | .ok _ =>
            some (mbCursorAndRest env st button action dropWidget (tr ++ [c]))
  else some (mbCursorAndRest env st button action dropWidget tr)

/-- `Screen::mouseButtonCallbackEvent` (lines 472-520): store the
modifiers, apply the modal-capture test, update the held-button bitmask
(32-bit int semantics), hit-test for the widget under the mouse, then the
synthesized drag-release, cursor update, drag-target selection and the
final widget dispatch. -/
def mouseButtonCallbackEvent (env : Env) (st0 : ScreenState)
    (button : Nat) (action : Int) (modifiers : Int) : Option HRes :=
  let st1 := { st0 with modifiers := modifiers }
  if modalBlocked st1 then some ⟨false, st1, [], none⟩
  else
    let st2 :=
      if action == 1 then
        { st1 with mouseState := (st1.mouseState ||| (1 <<< button)) % 2 ^ 32 }
      else
        { st1 with mouseState :=
            st1.mouseState &&& ((2 ^ 32 - 1) ^^^ ((1 <<< button) % 2 ^ 32)) }
    let dropWidget := env.findWidget st2.mousePos
    mbSynth env st2 button action dropWidget [Call.findW st2.mousePos]

/-- `Screen::scrollCallbackEvent` (lines 550-567): modal-capture test, then
`scrollEvent(mMousePos, Vector2f(x, y))` inside the try block. -/
def scrollCallbackEvent (env : Env) (st : ScreenState) (x y : ℚ) : HRes :=
  if modalBlocked st then ⟨false, st, [], none⟩
  else
    let c := Call.scrollEv st.mousePos x y
    match env.scrollEvent st.mousePos x y with
    | .error e => ⟨false, st, [c], some e⟩
    | .ok b => ⟨b, st, [c], none⟩

/-- `Screen::dropCallbackEvent` (lines 543-548): marshal the filename array
and call `dropEvent` — with NO surrounding try/catch, so an exception from
`dropEvent` propagates to the caller. -/
def dropCallbackEvent (env : Env) (filenames : List String) :
    Except String Bool :=
  env.dropEvent filenames

/-- `Screen::disposeWindow` (lines 614-620): clear the focus path when it
references the window, null the drag-widget pointer when it is the window —
note `mDragActive` is NOT cleared — and detach the window from the child
list (the child list is modelled separately for `moveWindowToFront` and is
not part of `ScreenState`). -/
def disposeWindow (st : ScreenState) (window : Nat) : ScreenState :=
  let st' :=
    if st.focusPath.any (fun w => w.id == window)
    then { st with focusPath := [] } else st
  if st'.dragWidget == some window
  then { st' with dragWidget := none } else st'

/-! ### Fixtures: concrete environments and states for witnesses -/

/-- A quiescent state: empty focus path, mouse at the origin, no drag. -/
def st0 : ScreenState :=
  ⟨(0, 0), 0, 0, false, none, 0, [], (0, 0), (0, 0)⟩

/-- `st0` while widget 1 is being dragged. -/
def stDrag : ScreenState := { st0 with dragActive := true, dragWidget := some 1 }

/-- An environment in which every user-supplied callback throws `e`. -/
def envThrow (e : String) : Env :=
  ⟨0, 1, fun _ => some 1, fun _ => 0, fun _ => (0, 0),
   fun _ _ _ _ _ => .error e, fun _ _ _ _ => .error e,
   fun _ _ _ _ => .error e, fun _ _ _ _ _ => .error e,
   fun _ _ _ => .error e, fun _ _ => .error e,
   some (fun _ => .error e), fun _ => .error e⟩

/-- An environment in which every callback succeeds. -/
def envOk : Env :=
  ⟨0, 1, fun _ => some 1, fun _ => 0, fun _ => (0, 0),
   fun _ _ _ _ _ => .ok false, fun _ _ _ _ => .ok true,
   fun _ _ _ _ => .ok true, fun _ _ _ _ _ => .ok true,
   fun _ _ _ => .ok true, fun _ _ => .ok true,
   some (fun _ => .ok ()), fun _ => .ok true⟩

/-- A focused entry (id 5) whose keyboard callbacks throw `e`. -/
def throwEntry (e : String) : FocusEntry :=
  ⟨5, false, false, (0, 0), (0, 0), true, .error e, .error e⟩

/-- A root entry (the screen) closing a focus path. -/
def rootEntry : FocusEntry :=
  ⟨9, false, false, (0, 0), (100, 100), true, .ok false, .ok false⟩

/-- A focused, consuming leaf entry (id 0). -/
def leafEntry : FocusEntry :=
  ⟨0, false, false, (0, 0), (4, 4), true, .ok true, .ok true⟩

/-- A focused, consuming window entry (id 1). -/
def winEntry : FocusEntry :=
  ⟨1, true, false, (0, 0), (10, 10), true, .ok true, .ok true⟩

/-- A focused modal window entry (id 3) occupying `[20, 30) × [20, 30)`. -/
def modalEntry : FocusEntry :=
  ⟨3, true, true, (20, 20), (10, 10), true, .ok false, .ok false⟩

/-! ### C2: modal input capture -/

/-- The modal-capture test fires exactly when the widget just below the
root of the focus path is a modal window not containing the mouse. -/
theorem modalBlocked_true (st : ScreenState)
    (hlen : st.focusPath.length > 1)
    (hwin : (st.focusPath.get ⟨st.focusPath.length - 2, by omega⟩).isWindow = true)
    (hmodal : (st.focusPath.get ⟨st.focusPath.length - 2, by omega⟩).modal = true)
    (hout : (st.focusPath.get ⟨st.focusPath.length - 2, by omega⟩).containsPt
        st.mousePos = false) :
    modalBlocked st = true := by
  unfold modalBlocked
  rw [dif_pos hlen]
  simp only [hwin, hmodal, hout]
  rfl

/-- **C2.** While the widget just below the root of the focus path (the
currently focused window) is a modal `Window` and the stored mouse position
lies outside its bounds, `mouseButtonCallbackEvent` and
`scrollCallbackEvent` invoke no widget callback and return false
(screen.cpp lines 472-483 and 550-567); only `mModifiers` is stored by the
button handler before the check. -/
theorem modal_capture_suppresses (env : Env) (st : ScreenState)
    (button : Nat) (action modifiers : Int) (x y : ℚ)
    (hlen : st.focusPath.length > 1)
    (hwin : (st.focusPath.get ⟨st.focusPath.length - 2, by omega⟩).isWindow = true)
    (hmodal : (st.focusPath.get ⟨st.focusPath.length - 2, by omega⟩).modal = true)
    (hout : (st.focusPath.get ⟨st.focusPath.length - 2, by omega⟩).containsPt
        st.mousePos = false) :
    mouseButtonCallbackEvent env st button action modifiers
        = some ⟨false, { st with modifiers := modifiers }, [], none⟩ ∧
    scrollCallbackEvent env st x y = ⟨false, st, [], none⟩ := by
  have hb : modalBlocked st = true := modalBlocked_true st hlen hwin hmodal hout
  have hb' : modalBlocked { st with modifiers := modifiers } = true := hb
  constructor
  · unfold mouseButtonCallbackEvent
    rw [if_pos hb']
  · unfold scrollCallbackEvent
    rw [if_pos hb]

/-- Witness for `modal_capture_suppresses`: mouse at the origin, modal
window at `[20, 30) × [20, 30)` just below the root. -/
theorem modal_capture_suppresses_witness :
    mouseButtonCallbackEvent envOk
        { st0 with focusPath := [leafEntry, modalEntry, rootEntry] } 1 1 7
      = some ⟨false,
          { st0 with focusPath := [leafEntry, modalEntry, rootEntry],
                     modifiers := 7 }, [], none⟩ ∧
    scrollCallbackEvent envOk
        { st0 with focusPath := [leafEntry, modalEntry, rootEntry] } 1 1
      = ⟨false, { st0 with focusPath := [leafEntry, modalEntry, rootEntry] },
          [], none⟩ :=
  modal_capture_suppresses envOk
    { st0 with focusPath := [leafEntry, modalEntry, rootEntry] }
    1 1 7 1 1 (by decide) (by decide) (by decide) (by decide)

/-! ### C3: exception catching at the handler boundaries

The button handler is analysed bottom-up: each stage of its pipeline
(`mbFinish`, `mbDragSelect`, `mbCursorAndRest`, `mbSynth`) preserves the
property that a caught exception makes the returned flag false, so the
property holds at every throw site (final dispatch, focus-out sweep,
synthesized drag-release) in every state. -/

/-- A caught exception in the final button dispatch yields a false flag. -/
theorem mbFinish_caught (env : Env) (st : ScreenState) (button : Nat)
    (action : Int) (tr : List Call) (e : String)
    (hc : (mbFinish env st button action tr).caught = some e) :
    (mbFinish env st button action tr).ret = false := by
  simp only [mbFinish] at hc ⊢
  rcases hbe : env.mouseButtonEvent st.mousePos button (action == 1)
      st.modifiers with e' | b
  · rfl
  · rw [hbe] at hc
    simp at hc

/-- A caught exception in the drag-selection stage (including the focus-out
sweep of `updateFocus(nullptr)`) yields a false flag. -/
theorem mbDragSelect_caught (env : Env) (st : ScreenState) (button : Nat)
    (action : Int) (tr : List Call) (hres : HRes)
    (h : mbDragSelect env st button action tr = hres) (e : String)
    (hc : hres.caught = some e) : hres.ret = false := by
  simp only [mbDragSelect] at h
  split at h
  · -- press of button 1 or 2
    split at h
    · -- the hit test found the screen itself: nothing grabbed,
      -- updateFocus(nullptr) runs its focus-out sweep
      rw [if_neg (by simp)] at h
      split at h
      · subst h
        rfl
      · subst h
        exact mbFinish_caught _ _ _ _ _ _ hc
    · -- a widget (or nothing) was hit
      split at h
      · subst h
        exact mbFinish_caught _ _ _ _ _ _ hc
      · split at h
        · subst h
          rfl
        · subst h
          exact mbFinish_caught _ _ _ _ _ _ hc
  · -- release or other button: drag state cleared, final dispatch
    subst h
    exact mbFinish_caught _ _ _ _ _ _ hc

/-- A caught exception after the cursor-shape update yields a false flag. -/
theorem mbCursorAndRest_caught (env : Env) (st : ScreenState) (button : Nat)
    (action : Int) (dropWidget : Option Nat) (tr : List Call) (hres : HRes)
    (h : mbCursorAndRest env st button action dropWidget tr = hres)
    (e : String) (hc : hres.caught = some e) : hres.ret = false := by
  simp only [mbCursorAndRest] at h
  split at h
  · split at h
    · exact mbDragSelect_caught _ _ _ _ _ _ h e hc
    · exact mbDragSelect_caught _ _ _ _ _ _ h e hc
  · exact mbDragSelect_caught _ _ _ _ _ _ h e hc

/-- A caught exception from the synthesized drag-release onward yields a
false flag. -/
theorem mbSynth_caught (env : Env) (st : ScreenState) (button : Nat)
    (action : Int) (dropWidget : Option Nat) (tr : List Call) (hres : HRes)
    (h : mbSynth env st button action dropWidget tr = some hres) (e : String)
    (hc : hres.caught = some e) : hres.ret = false := by
  simp only [mbSynth] at h
  split at h
  · split at h
    · exact absurd h (by simp)
    · split at h
      · cases Option.some.inj h
        rfl
      · cases Option.some.inj h
        exact mbCursorAndRest_caught _ _ _ _ _ _ _ rfl e hc
  · cases Option.some.inj h
    exact mbCursorAndRest_caught _ _ _ _ _ _ _ rfl e hc

/-- **C3 (amended).** Every native-event handler of `Screen` EXCEPT the
file-drop handler — cursor motion, mouse button, key, character, scroll,
resize — catches every exception raised by user callbacks during its
dispatch and reports the event unhandled: in EVERY state and environment,
whenever the handler's try/catch boundary catches an exception, the handler
returns false (screen.cpp lines 436-470, 472-520, 522-530, 532-541,
550-567, 569-591), covering every throw site — drag and motion delivery,
the synthesized drag-release, the focus-out sweep, the final button
dispatch, the keyboard loops, scroll delivery and the resize hook.
`dropCallbackEvent` (lines 543-548) has no try/catch, which the
counterexample exhibits. -/
theorem handlers_catch_callback_exceptions :
    (∀ (env : Env) (st : ScreenState) (x y : ℚ) (hres : HRes) (e : String),
      cursorPosCallbackEvent env st x y = some hres →
      hres.caught = some e → hres.ret = false) ∧
    (∀ (env : Env) (st : ScreenState) (button : Nat)
        (action modifiers : Int) (hres : HRes) (e : String),
      mouseButtonCallbackEvent env st button action modifiers = some hres →
      hres.caught = some e → hres.ret = false) ∧
    (∀ (path : List FocusEntry) (e : String) (t : List Nat),
      Screen.keyboardEvent path = (.error e, t) →
      keyCallbackEvent path = (false, t)) ∧
    (∀ (path : List FocusEntry) (e : String) (t : List Nat),
      Screen.keyboardCharacterEvent path = (.error e, t) →
      charCallbackEvent path = (false, t)) ∧
    (∀ (env : Env) (st : ScreenState) (x y : ℚ) (e : String),
      (scrollCallbackEvent env st x y).caught = some e →
      (scrollCallbackEvent env st x y).ret = false) ∧
    (∀ (env : Env) (st : ScreenState) (nativeSize : V2) (e : String),
      (resizeCallbackEvent env st nativeSize).caught = some e →
      (resizeCallbackEvent env st nativeSize).ret = false) := by
  refine ⟨?_, ?_, ?_, ?_, ?_, ?_⟩
  · -- cursorPosCallbackEvent: drag throw, drag-then-motion throw,
    -- non-drag motion throw
    intro env st x y hres e h hc
    simp only [cursorPosCallbackEvent] at h
    split at h
    · split at h
      · exact absurd h (by simp)
      · split at h
        · cases Option.some.inj h
          rfl
        · cases Option.some.inj h
          simp at hc
        · split at h
          · cases Option.some.inj h
            rfl
          · cases Option.some.inj h
            simp at hc
    · split at h
      · cases Option.some.inj h
        rfl
      · cases Option.some.inj h
        simp at hc
  · -- mouseButtonCallbackEvent: delegate to the pipeline lemmas
    intro env st button action modifiers hres e h hc
    simp only [mouseButtonCallbackEvent] at h
    split at h
    · cases Option.some.inj h
      simp at hc
    · exact mbSynth_caught _ _ _ _ _ _ hres h e hc
  · -- keyCallbackEvent
    intro path e t hk
    unfold keyCallbackEvent
    rw [hk]
  · -- charCallbackEvent
    intro path e t hk
    unfold charCallbackEvent
    rw [hk]
  · -- scrollCallbackEvent
    intro env st x y e
    unfold scrollCallbackEvent
    split
    · intro hc
      simp at hc
    · split
      · intro hc
        rfl
      · intro hc
        simp at hc
  · -- resizeCallbackEvent
    intro env st nativeSize e
    simp only [resizeCallbackEvent]
    split
    · intro hc
      simp at hc
    · split
      · intro hc
        rfl
      · intro hc
        simp at hc

/-- `st0` while widget 2 is being dragged (the hit test of `envThrow` finds
widget 1, so a release synthesizes a drag-release to widget 2). -/
def stDrag2 : ScreenState := { st0 with dragActive := true, dragWidget := some 2 }

/-- `envThrow "boom"` whose hit test finds the screen itself, so a press
grabs nothing and runs the focus-out sweep of `updateFocus(nullptr)`. -/
def envThrowScreen : Env := { envThrow "boom" with findWidget := fun _ => some 0 }

/-- `st0` with a focused leaf (id 0) on the focus path. -/
def stFoc : ScreenState := { st0 with focusPath := [leafEntry] }

/-- Outcome of a drag-delivery throw in the cursor handler. -/
def cursorDragThrowRes : HRes :=
  ⟨false, stDrag, [Call.dragEv 1 (-1, -2) (-1, -2) 0 0], some "boom"⟩

/-- Outcome of a non-drag motion-delivery throw in the cursor handler. -/
def cursorMotionThrowRes : HRes :=
  ⟨false, st0, [Call.findW (-1, -2), Call.motionEv (-1, -2) (-1, -2) 0 0],
    some "boom"⟩

/-- Outcome of a synthesized drag-release throw in the button handler. -/
def mbSynthThrowRes : HRes :=
  ⟨false, stDrag2, [Call.findW (0, 0), Call.dragButtonEv 2 (0, 0) 3 false 0],
    some "boom"⟩

/-- Outcome of a focus-out-sweep throw in the button handler. -/
def mbSweepThrowRes : HRes :=
  ⟨false, { st0 with mouseState := 2, focusPath := [leafEntry] },
    [Call.findW (0, 0), Call.findW (0, 0), Call.focusChangeEv 0 false],
    some "boom"⟩

/-- Outcome of a final-dispatch throw on the press path of the button
handler. -/
def mbFinalThrowRes : HRes :=
  ⟨false, { st0 with mouseState := 2, dragActive := true, dragWidget := some 1 },
    [Call.findW (0, 0), Call.findW (0, 0), Call.buttonEv (0, 0) 1 true 0],
    some "boom"⟩

/-- Witness for `handlers_catch_callback_exceptions`: concrete throwing
runs hitting every throw site — the drag delivery and the non-drag motion
delivery of the cursor handler, the synthesized drag-release, the focus-out
sweep and the final press dispatch of the button handler, the keyboard
loops, the scroll delivery and the resize hook. -/
theorem handlers_catch_callback_exceptions_witness :
    (cursorPosCallbackEvent (envThrow "boom") stDrag 0 0
        = some cursorDragThrowRes ∧ cursorDragThrowRes.ret = false) ∧
    (cursorPosCallbackEvent (envThrow "boom") st0 0 0
        = some cursorMotionThrowRes ∧ cursorMotionThrowRes.ret = false) ∧
    (mouseButtonCallbackEvent (envThrow "boom") stDrag2 3 0 0
        = some mbSynthThrowRes ∧ mbSynthThrowRes.ret = false) ∧
    (mouseButtonCallbackEvent envThrowScreen stFoc 1 1 0
        = some mbSweepThrowRes ∧ mbSweepThrowRes.ret = false) ∧
    (mouseButtonCallbackEvent (envThrow "boom") st0 1 1 0
        = some mbFinalThrowRes ∧ mbFinalThrowRes.ret = false) ∧
    (Screen.keyboardEvent [throwEntry "boom", rootEntry]
        = (.error "boom", [5]) ∧
      keyCallbackEvent [throwEntry "boom", rootEntry] = (false, [5])) ∧
    (Screen.keyboardCharacterEvent [throwEntry "boom", rootEntry]
        = (.error "boom", [5]) ∧
      charCallbackEvent [throwEntry "boom", rootEntry] = (false, [5])) ∧
    ((scrollCallbackEvent (envThrow "boom") st0 1 1).caught = some "boom" ∧
      (scrollCallbackEvent (envThrow "boom") st0 1 1).ret = false) ∧
    ((resizeCallbackEvent (envThrow "boom") st0 (4, 4)).caught = some "boom" ∧
      (resizeCallbackEvent (envThrow "boom") st0 (4, 4)).ret = false) :=
  ⟨⟨by decide, handlers_catch_callback_exceptions.1 (envThrow "boom") stDrag
      0 0 cursorDragThrowRes "boom" (by decide) (by decide)⟩,
    ⟨by decide, handlers_catch_callback_exceptions.1 (envThrow "boom") st0
      0 0 cursorMotionThrowRes "boom" (by decide) (by decide)⟩,
    ⟨by decide, handlers_catch_callback_exceptions.2.1 (envThrow "boom")
      stDrag2 3 0 0 mbSynthThrowRes "boom" (by decide) (by decide)⟩,
    ⟨by decide, handlers_catch_callback_exceptions.2.1 envThrowScreen
      stFoc 1 1 0 mbSweepThrowRes "boom" (by decide) (by decide)⟩,
    ⟨by decide, handlers_catch_callback_exceptions.2.1 (envThrow "boom")
      st0 1 1 0 mbFinalThrowRes "boom" (by decide) (by decide)⟩,
    ⟨by decide, handlers_catch_callback_exceptions.2.2.1
      [throwEntry "boom", rootEntry] "boom" [5] (by decide)⟩,
    ⟨by decide, handlers_catch_callback_exceptions.2.2.2.1
      [throwEntry "boom", rootEntry] "boom" [5] (by decide)⟩,
    ⟨by decide, handlers_catch_callback_exceptions.2.2.2.2.1
      (envThrow "boom") st0 1 1 "boom" (by decide)⟩,
    ⟨by decide, handlers_catch_callback_exceptions.2.2.2.2.2
      (envThrow "boom") st0 (4, 4) "boom" (by decide)⟩⟩

/-- **C3 counterexample.** The file-drop entry point has no try/catch: an
exception thrown by `dropEvent` propagates out of `dropCallbackEvent`
instead of being caught and reported as unhandled (screen.cpp
lines 543-548). -/
theorem dropCallbackEvent_propagates :
    dropCallbackEvent (envThrow "boom") ["a.png"] = .error "boom" ∧
    dropCallbackEvent (envThrow "boom") ["a.png"] ≠ .ok false := by
  exact ⟨by decide, by decide⟩

/-! ### C5: keyboard routing along the focus path -/

/-- **C5 counterexample.** Focus path `[leaf, window, root]` (leaf first,
root last) with both the leaf (id 0) and the window (id 1) focused and
consuming: the handlers invoke the window — the widget just below the root
— first and only, so the delivery order is NOT deepest-first; leaf-to-root
delivery would have invoked the leaf (trace `[0]`) and never reached the
window (screen.cpp lines 409-426: the loop starts at `rbegin() + 1`, i.e.
at the entry just below the root, and walks toward the leaf). -/
theorem key_routing_not_deepest_first :
    keyCallbackEvent [leafEntry, winEntry, rootEntry] = (true, [1]) ∧
    charCallbackEvent [leafEntry, winEntry, rootEntry] = (true, [1]) ∧
    ([1] : List Nat) ≠ [0] := by decide

/-- `focusDispatch` over `pre ++ wk :: post`, where no focused member of
`pre` consumes (or throws) and `wk` is focused and consumes: the dispatch
succeeds, invoking exactly the focused members of `pre` followed by `wk`,
and nothing in `post`. -/
theorem focusDispatch_first_consumer (sel : FocusEntry → Except String Bool) :
    ∀ (pre : List FocusEntry) (wk : FocusEntry) (post : List FocusEntry),
      (∀ w ∈ pre, w.focused = true → sel w = .ok false) →
      wk.focused = true → sel wk = .ok true →
      focusDispatch sel (pre ++ wk :: post)
        = (.ok true,
            (pre.filter (fun w => w.focused)).map FocusEntry.id ++ [wk.id]) := by
  intro pre
  induction pre with
  | nil =>
      intro wk post _ hfoc hsel
      simp [focusDispatch, hfoc, hsel]
  | cons w t ih =>
      intro wk post hpre hfoc hsel
      have iht := ih wk post
        (fun w' hw' => hpre w' (List.mem_cons_of_mem w hw')) hfoc hsel
      by_cases hw : w.focused = true
      · have hsw := hpre w (List.mem_cons_self w t) hw
        simp [focusDispatch, hw, hsw, iht]
      · rw [Bool.not_eq_true] at hw
        simp [focusDispatch, hw, iht]

/-- **C5 (amended).** Keyboard and character events delivered while the
focus path is non-empty are offered to the widgets of the path excluding
the root in SHALLOWEST-first order — from the widget just below the root
down to the focused leaf — and the first offered widget that is both
focused and consumes the event wins: the handler returns true and no
further (deeper) widget on the path is invoked (screen.cpp lines 409-426,
522-541).  `pre` is the already-traversed part of the iteration sequence
`path.dropLast.reverse`. -/
theorem key_routing_shallowest_first (path pre post : List FocusEntry)
    (wk : FocusEntry)
    (hsplit : path.dropLast.reverse = pre ++ wk :: post)
    (hpreK : ∀ w ∈ pre, w.focused = true → w.keyResult = .ok false)
    (hpreC : ∀ w ∈ pre, w.focused = true → w.charResult = .ok false)
    (hfoc : wk.focused = true)
    (hk : wk.keyResult = .ok true)
    (hc : wk.charResult = .ok true) :
    keyCallbackEvent path
      = (true, (pre.filter (fun w => w.focused)).map FocusEntry.id ++ [wk.id]) ∧
    charCallbackEvent path
      = (true, (pre.filter (fun w => w.focused)).map FocusEntry.id ++ [wk.id]) := by
  have hpos : path.length > 0 := by
    have h1 : path.dropLast.reverse.length = pre.length + (post.length + 1) := by
      rw [hsplit]; simp
    rw [List.length_reverse, List.length_dropLast] at h1
    omega
  constructor
  · unfold keyCallbackEvent Screen.keyboardEvent
    rw [if_pos hpos, hsplit,
      focusDispatch_first_consumer _ pre wk post hpreK hfoc hk]
  · unfold charCallbackEvent Screen.keyboardCharacterEvent
    rw [if_pos hpos, hsplit,
      focusDispatch_first_consumer _ pre wk post hpreC hfoc hc]

/-- Witness for `key_routing_shallowest_first`: path `[leaf, window, root]`
where the leaf does not consume; the window (just below the root) wins. -/
theorem key_routing_shallowest_first_witness :
    keyCallbackEvent [⟨0, false, false, (0, 0), (4, 4), true, .ok false,
        .ok false⟩, winEntry, rootEntry] = (true, [1]) ∧
    charCallbackEvent [⟨0, false, false, (0, 0), (4, 4), true, .ok false,
        .ok false⟩, winEntry, rootEntry] = (true, [1]) :=
  key_routing_shallowest_first
    [⟨0, false, false, (0, 0), (4, 4), true, .ok false, .ok false⟩,
      winEntry, rootEntry]
    [] [⟨0, false, false, (0, 0), (4, 4), true, .ok false, .ok false⟩] winEntry
    (by decide) (by decide) (by decide) (by decide) (by decide) (by decide)

/-! ### C6: zero-size guard in the resize handler -/

/-- **C6.** `resizeCallbackEvent`: a native size report that is zero-valued
in either the raw (framebuffer) reading or its DPI-scaled (logical) copy
leaves all cached state untouched, fires nothing and returns false;
otherwise both cached sizes are updated and the resize hook (when
installed) is notified with the new logical size (screen.cpp
lines 569-591). -/
theorem resizeCallbackEvent_zero_guard (env : Env) (st : ScreenState)
    (nativeSize : V2) :
    (nativeSize = ((0 : Int), (0 : Int))
        ∨ dpiScale nativeSize env.pixelRatio = ((0 : Int), (0 : Int)) →
      resizeCallbackEvent env st nativeSize = ⟨false, st, [], none⟩) ∧
    (¬ (nativeSize = ((0 : Int), (0 : Int))
        ∨ dpiScale nativeSize env.pixelRatio = ((0 : Int), (0 : Int))) →
      (resizeCallbackEvent env st nativeSize).st.fbSize = nativeSize ∧
      (resizeCallbackEvent env st nativeSize).st.size
          = dpiScale nativeSize env.pixelRatio ∧
      ∀ cb, env.resizeCallback = some cb →
        (resizeCallbackEvent env st nativeSize).calls
          = [Call.resizeEv (dpiScale nativeSize env.pixelRatio)]) := by
  constructor
  · intro h
    unfold resizeCallbackEvent
    rw [if_pos h]
  · intro h
    have hcalls : ∀ cb, env.resizeCallback = some cb →
        (Screen.resizeEvent env (dpiScale nativeSize env.pixelRatio)).2
          = [Call.resizeEv (dpiScale nativeSize env.pixelRatio)] := by
      intro cb hcb
      unfold Screen.resizeEvent
      rw [hcb]
      rcases hr2 : cb (dpiScale nativeSize env.pixelRatio) with e | u
      · simp [hr2]
      · simp [hr2]
    rcases hre : Screen.resizeEvent env (dpiScale nativeSize env.pixelRatio)
      with ⟨r, calls⟩
    have hc2 : calls
        = (Screen.resizeEvent env (dpiScale nativeSize env.pixelRatio)).2 := by
      rw [hre]
    simp only [resizeCallbackEvent]
    rw [if_neg h, hre]
    cases r with
    | error e =>
        refine ⟨rfl, rfl, ?_⟩
        intro cb hcb
        simpa using hc2.trans (hcalls cb hcb)
    | ok b =>
        refine ⟨rfl, rfl, ?_⟩
        intro cb hcb
        simpa using hc2.trans (hcalls cb hcb)

/-- Witness for `resizeCallbackEvent_zero_guard`: both halves at concrete
inputs (ratio 1, hook installed). -/
theorem resizeCallbackEvent_zero_guard_witness :
    resizeCallbackEvent envOk st0 (0, 0) = ⟨false, st0, [], none⟩ ∧
    (resizeCallbackEvent envOk st0 (4, 4)).st.fbSize = (4, 4) ∧
    (resizeCallbackEvent envOk st0 (4, 4)).st.size = dpiScale (4, 4) envOk.pixelRatio ∧
    (resizeCallbackEvent envOk st0 (4, 4)).calls
        = [Call.resizeEv (dpiScale (4, 4) envOk.pixelRatio)] :=
  ⟨(resizeCallbackEvent_zero_guard envOk st0 (0, 0)).1 (Or.inl rfl),
    ((resizeCallbackEvent_zero_guard envOk st0 (4, 4)).2 (by decide)).1,
    ((resizeCallbackEvent_zero_guard envOk st0 (4, 4)).2 (by decide)).2.1,
    ((resizeCallbackEvent_zero_guard envOk st0 (4, 4)).2 (by decide)).2.2
      (fun _ => .ok ()) rfl⟩

/-! ### C4 and C10: the cursor-motion handler -/

/-- **C4 (amended).** After `cursorPosCallbackEvent(x, y)` returns, the
stored mouse position equals the translated logical position — EXCEPT when
the drag- or motion-event delivery throws: the exception is caught, the
handler returns false, and `mMousePos` retains its previous value, because
the assignment `mMousePos = p` (screen.cpp line 463) sits inside the try
block after the dispatch calls. -/
theorem cursorPos_mouse_update (env : Env) (st : ScreenState) (x y : ℚ)
    (hres : HRes)
    (h : cursorPosCallbackEvent env st x y = some hres) :
    (hres.caught = none →
      hres.st.mousePos = translatePos env.pixelRatio x y) ∧
    (∀ e, hres.caught = some e →
      hres.ret = false ∧ hres.st.mousePos = st.mousePos) := by
  simp only [cursorPosCallbackEvent] at h
  split at h
  · -- drag branch
    split at h
    · exact absurd h (by simp)
    · split at h
      · cases Option.some.inj h
        simp
      · cases Option.some.inj h
        simp
      · split at h
        · cases Option.some.inj h
          simp
        · cases Option.some.inj h
          simp
  · -- non-drag branch
    split at h
    · cases Option.some.inj h
      refine ⟨by simp, ?_⟩
      intro e' he'
      refine ⟨rfl, ?_⟩
      show (match env.findWidget (translatePos env.pixelRatio x y) with
        | some wid =>
            if env.widgetCursor wid ≠ st.cursor
            then { st with cursor := env.widgetCursor wid } else st
        | none => st).mousePos = st.mousePos
      split
      · split <;> rfl
      · rfl
    · cases Option.some.inj h
      simp

/-- **C4 counterexample.** With the mouse previously at `(5, 5)` and a drag
callback that throws, `cursorPosCallbackEvent(0, 0)` returns false and
leaves the stored mouse position at `(5, 5)`, not at the translated
position `(-1, -2)` — refuting the claim that the position is updated
unconditionally. -/
theorem cursorPos_mouse_stale_on_exception :
    (cursorPosCallbackEvent (envThrow "boom")
        { st0 with dragActive := true, dragWidget := some 1, mousePos := (5, 5) }
        0 0).map (fun h => (h.ret, h.st.mousePos))
      = some (false, (5, 5)) ∧
    translatePos (envThrow "boom").pixelRatio 0 0 = (-1, -2) ∧
    ((5, 5) : V2) ≠ ((-1, -2) : V2) := by decide

/-- The successful run used to witness `cursorPos_mouse_update`. -/
def cursorOkRes : HRes :=
  ⟨true, { st0 with mousePos := (2, 2) },
    [Call.findW (2, 2), Call.motionEv (2, 2) (2, 2) 0 0], none⟩

/-- Witness for `cursorPos_mouse_update` at a concrete successful run. -/
theorem cursorPos_mouse_update_witness :
    (cursorPosCallbackEvent envOk st0 3 4 = some cursorOkRes) ∧
    ((cursorOkRes.caught = none →
        cursorOkRes.st.mousePos = translatePos envOk.pixelRatio 3 4) ∧
      (∀ e, cursorOkRes.caught = some e →
        cursorOkRes.ret = false ∧ cursorOkRes.st.mousePos = st0.mousePos)) :=
  ⟨by decide, cursorPos_mouse_update envOk st0 3 4 cursorOkRes (by decide)⟩

/-- **C10.** Every position `cursorPosCallbackEvent` hands to the widget
layer — the hit-test point, the drag-delivery arguments, the motion-event
point — and every stored mouse position is the DPI-adjusted point
`(x / pixelRatio, y / pixelRatio)` additionally shifted by `(-1, -2)`
(`translatePos`; screen.cpp lines 437-441 and the `p -= Vector2i(1, 2)` at
line 446), not the DPI-adjusted point itself. -/
theorem cursorPos_uses_shifted_point (env : Env) (st : ScreenState)
    (x y : ℚ) (hres : HRes)
    (h : cursorPosCallbackEvent env st x y = some hres) :
    (∀ p, Call.findW p ∈ hres.calls → p = translatePos env.pixelRatio x y) ∧
    (∀ w rel delta btns mods,
      Call.dragEv w rel delta btns mods ∈ hres.calls →
        rel = v2sub (translatePos env.pixelRatio x y) (env.parentAbsPos w) ∧
        delta = v2sub (translatePos env.pixelRatio x y) st.mousePos) ∧
    (∀ p delta btns mods, Call.motionEv p delta btns mods ∈ hres.calls →
        p = translatePos env.pixelRatio x y) ∧
    (hres.caught = none →
      hres.st.mousePos = translatePos env.pixelRatio x y) := by
  simp only [cursorPosCallbackEvent] at h
  split at h
  · split at h
    · exact absurd h (by simp)
    · split at h
      · cases Option.some.inj h
        refine ⟨by simp, ?_, by simp, by simp⟩
        intro w rel delta btns mods hmem
        simp at hmem
        obtain ⟨hw, hrel, hdelta, _, _⟩ := hmem
        subst hw
        exact ⟨hrel, hdelta⟩
      · cases Option.some.inj h
        refine ⟨by simp, ?_, by simp, by simp⟩
        intro w rel delta btns mods hmem
        simp at hmem
        obtain ⟨hw, hrel, hdelta, _, _⟩ := hmem
        subst hw
        exact ⟨hrel, hdelta⟩
      · split at h
        · cases Option.some.inj h
          refine ⟨by simp, ?_, ?_, by simp⟩
          · intro w rel delta btns mods hmem
            simp at hmem
            obtain ⟨hw, hrel, hdelta, _, _⟩ := hmem
            subst hw
            exact ⟨hrel, hdelta⟩
          · intro p delta btns mods hmem
            simp at hmem
            exact hmem.1
        · cases Option.some.inj h
          refine ⟨by simp, ?_, ?_, by simp⟩
          · intro w rel delta btns mods hmem
            simp at hmem
            obtain ⟨hw, hrel, hdelta, _, _⟩ := hmem
            subst hw
            exact ⟨hrel, hdelta⟩
          · intro p delta btns mods hmem
            simp at hmem
            exact hmem.1
  · split at h
    · cases Option.some.inj h
      refine ⟨?_, by simp, ?_, ?_⟩
      · intro p hp
        simp at hp
        exact hp
      · intro p delta btns mods hmem
        simp at hmem
        exact hmem.1
      · intro hc
        exact absurd hc (by simp)
    · cases Option.some.inj h
      refine ⟨?_, by simp, ?_, ?_⟩
      · intro p hp
        simp at hp
        exact hp
      · intro p delta btns mods hmem
        simp at hmem
        exact hmem.1
      · intro hc
        simp

/-- Witness for `cursorPos_uses_shifted_point` at a concrete run with
pixel ratio 2: raw `(7, 9)` becomes `(7/2 - 1, 9/2 - 2) = (2, 2)`. -/
theorem cursorPos_uses_shifted_point_witness :
    (cursorPosCallbackEvent { envOk with pixelRatio := 2 } st0 7 9
      = some cursorOkRes) ∧
    ((∀ p, Call.findW p ∈ cursorOkRes.calls →
        p = translatePos ({ envOk with pixelRatio := 2 } : Env).pixelRatio 7 9) ∧
      (∀ w rel delta btns mods,
        Call.dragEv w rel delta btns mods ∈ cursorOkRes.calls →
          rel = v2sub
            (translatePos ({ envOk with pixelRatio := 2 } : Env).pixelRatio 7 9)
            (({ envOk with pixelRatio := 2 } : Env).parentAbsPos w) ∧
          delta = v2sub
            (translatePos ({ envOk with pixelRatio := 2 } : Env).pixelRatio 7 9)
            st0.mousePos) ∧
      (∀ p delta btns mods, Call.motionEv p delta btns mods ∈ cursorOkRes.calls →
          p = translatePos ({ envOk with pixelRatio := 2 } : Env).pixelRatio 7 9) ∧
      (cursorOkRes.caught = none →
        cursorOkRes.st.mousePos
          = translatePos ({ envOk with pixelRatio := 2 } : Env).pixelRatio 7 9)) :=
  ⟨by decide,
    cursorPos_uses_shifted_point { envOk with pixelRatio := 2 } st0 7 9
      cursorOkRes (by decide)⟩

/-! ### C9: the drag-active / drag-widget invariant -/

/-- `envOk` with a widget (id 7) under every point. -/
def envC9 : Env := { envOk with findWidget := fun _ => some 7 }

/-- The state after pressing button 1 over widget 7 starting from `st0`. -/
def hresC9 : HRes :=
  ⟨true, { st0 with mouseState := 2, dragActive := true, dragWidget := some 7 },
    [Call.findW (0, 0), Call.findW (0, 0), Call.buttonEv (0, 0) 1 true 0], none⟩

/-- **C9 (code bug).** A press of button 1 over widget 7 makes it the drag
target with `mDragActive = true`; `disposeWindow(7)` then nulls
`mDragWidget` WITHOUT clearing `mDragActive` (screen.cpp lines 614-620), so
the invariant `mDragActive → mDragWidget ≠ null` is broken, and the next
`cursorPosCallbackEvent` dereferences the null `mDragWidget`
(screen.cpp line 455) — modelled by the `none` result. -/
theorem disposeWindow_breaks_drag_invariant :
    mouseButtonCallbackEvent envC9 st0 1 1 0 = some hresC9 ∧
    hresC9.st.dragActive = true ∧
    hresC9.st.dragWidget = some 7 ∧
    (disposeWindow hresC9.st 7).dragActive = true ∧
    (disposeWindow hresC9.st 7).dragWidget = none ∧
    cursorPosCallbackEvent envC9 (disposeWindow hresC9.st 7) 0 0 = none := by
  decide

end NanoGui
